import Mathlib

/-!
Verification of the Salesforce file tools (`src/tools/salesforce_simple.py`,
`src/tools/salesforce_replace.py`, `src/tools/salesforce_upload.py`).

The Python code is shallowly embedded: pure string manipulation is translated
function-by-function; network I/O and the third-party pptx library are
abstracted into an explicit environment record (`Env`) whose fields give the
outcome of each external call of one invocation.  Machine behaviour that the
tools rely on (Python `str.strip`, `str.replace`, `str.startswith`, the `in`
substring test, `re.sub` with the fixed pattern, `base64.b64encode`,
`str.encode` as UTF-8) is modelled by executable definitions below.
-/

namespace WxoSf

/-! ## Python string primitives -/

/-- Model of the Python substring test used as the guard of `startswith`-style
checks: `startsSeq pat s` is true when `pat` is an initial segment of `s`. -/
def startsSeq : List Char → List Char → Bool
  | [], _ => true
  | _ :: _, [] => false
  | p :: ps, c :: cs => p == c && startsSeq ps cs

/-- Model of Python `pat in s` (contiguous substring test) on code-point
lists: true when `pat` occurs contiguously inside `s`. -/
def containsSeq (pat : List Char) : List Char → Bool
  | [] => startsSeq pat []
  | c :: cs => startsSeq pat (c :: cs) || containsSeq pat cs

/-- Python `pat in s` for strings. -/
def containsStr (s pat : String) : Bool := containsSeq pat.data s.data

/-- Python `s.startswith(pat)`. -/
def pyStartsWith (s pat : String) : Bool := startsSeq pat.data s.data

/-- Characters removed by Python `str.strip()` (the ASCII whitespace set;
the tools only ever receive ASCII identifiers and names, so the non-ASCII
Unicode spaces Python would additionally strip are not modelled). -/
def pySpace (c : Char) : Bool :=
  c == ' ' || c == '\t' || c == '\n' || c == '\r' || c == '\x0b' || c == '\x0c'

/-- Python `s.strip()`: drop leading and trailing whitespace. -/
def pyStrip (s : String) : String :=
  String.mk (((s.data.dropWhile pySpace).reverse.dropWhile pySpace).reverse)

/-- Worker for `pyReplace`: left-to-right, non-overlapping replacement of a
non-empty pattern, with fuel bounding the number of scanning steps (the fuel
is initialised to the length of the scanned list, which suffices because each
step consumes at least one character). -/
def replaceSeq (pat repl : List Char) : Nat → List Char → List Char
  | _, [] => []
  | 0, s => s
  | n + 1, c :: cs =>
    if startsSeq pat (c :: cs) then
      repl ++ replaceSeq pat repl n ((c :: cs).drop pat.length)
    else
      c :: replaceSeq pat repl n cs

/-- Python `s.replace(pat, repl)` for the non-empty patterns used by the
tools (`"<Company>"`, `"<Tier>"`, `" "`, `"/"`). -/
def pyReplace (s pat repl : String) : String :=
  String.mk (replaceSeq pat.data repl.data s.data.length s.data)

/-- Python `s.rstrip(c)` specialised to one strip character, as used for
`creds.url.rstrip(..)`. -/
def pyRstripChar (s : String) (c : Char) : String :=
  String.mk ((s.data.reverse.dropWhile (· == c)).reverse)

/-! ## The date rewrite: `re.sub` with the fixed pattern -/

/-- Does the list start with a match of the regular expression
`31 December \d{4}` (the literal text `"31 December "` followed by exactly
four ASCII digits)?  Python `\d` additionally matches non-ASCII decimal
digits; the templates are ASCII, so only ASCII digits are modelled. -/
def isDateAt (s : List Char) : Bool :=
  startsSeq "31 December ".data s &&
    ((s.drop 12).take 4).length == 4 &&
    ((s.drop 12).take 4).all Char.isDigit

/-- Worker for `subDate`: leftmost, non-overlapping replacement of every
match of `31 December \d{4}`, exactly as `re.sub` scans.  A match consumes
16 characters. -/
def replaceDateSeq (repl : List Char) : Nat → List Char → List Char
  | _, [] => []
  | 0, s => s
  | n + 1, c :: cs =>
    if isDateAt (c :: cs) then
      repl ++ replaceDateSeq repl n ((c :: cs).drop 16)
    else
      c :: replaceDateSeq repl n cs

/-- Model of `re.sub(r'31 December \d{4}', repl, s)` (the replacement text
contains no backreferences in the source, so it is inserted literally). -/
def subDate (repl s : String) : String :=
  String.mk (replaceDateSeq repl.data s.data.length s.data)

/-! ## UTF-8 encoding (`str.encode('utf-8')`) -/

/-- UTF-8 bytes of one code point (`Char` excludes surrogates, exactly as
Python `str` code points passed to `.encode('utf-8')`). -/
def charUtf8 (c : Char) : List Nat :=
  let v := c.toNat
  if v < 128 then [v]
  else if v < 2048 then [192 + v / 64, 128 + v % 64]
  else if v < 65536 then [224 + v / 4096, 128 + (v / 64) % 64, 128 + v % 64]
  else [240 + v / 262144, 128 + (v / 4096) % 64, 128 + (v / 64) % 64, 128 + v % 64]

/-- UTF-8 bytes of a code-point list. -/
def encodeChars : List Char → List Nat
  | [] => []
  | c :: cs => charUtf8 c ++ encodeChars cs

/-- Python `s.encode('utf-8')`, bytes as naturals. -/
def encodeStr (s : String) : List Nat := encodeChars s.data

/-! ## base64 (`base64.b64encode`) -/

/-- The base64 alphabet. -/
def b64Alphabet : List Char :=
  "ABCDEFGHIJKLMNOPQRSTUVWXYZabcdefghijklmnopqrstuvwxyz0123456789+/".data

/-- The base64 digit for a 6-bit value. -/
def b64Digit (n : Nat) : Char := b64Alphabet.getD (n % 64) 'A'

/-- Model of `base64.b64encode`: standard base64 with `=` padding, three
input bytes per four output characters. -/
def b64encode : List Nat → List Char
  | [] => []
  | [a] => [b64Digit (a / 4), b64Digit (a % 4 * 16), '=', '=']
  | [a, b] => [b64Digit (a / 4), b64Digit (a % 4 * 16 + b / 16), b64Digit (b % 16 * 4), '=']
  | a :: b :: c :: rest =>
    b64Digit (a / 4) :: b64Digit (a % 4 * 16 + b / 16) ::
      b64Digit (b % 16 * 4 + c / 64) :: b64Digit (c % 64) :: b64encode rest

/-! ## The slide-deck model and `modify_pptx_template`

`python-pptx` objects are modelled by their text content, which is all the
rewriting loop in `modify_pptx_template` reads or writes: a presentation is a
list of slides, a slide a list of shapes, a shape either has no text frame
(`none`, skipped by the `hasattr(shape, "text_frame")` guard) or is a list of
paragraphs, and a paragraph is the list of the `.text` values of its runs. -/

/-- A text frame: the paragraphs, each the list of its runs' texts. -/
abbrev Frame := List (List String)

/-- A presentation: slides of shapes; a shape without a text frame is `none`. -/
abbrev Pres := List (List (Option Frame))

/-- `paragraph.text`: the concatenation of the texts of the runs. -/
def paraChars (rs : List String) : List Char := (rs.map String.data).flatten

/-- `shape.text` (= `text_frame.text`): paragraph texts joined by `"\n"`. -/
def shapeChars : Frame → List Char
  | [] => []
  | [p] => paraChars p
  | p :: q :: rest => paraChars p ++ '\n' :: shapeChars (q :: rest)

/-- The `<Company>` replacement of one run, including its guard:
`if "<Company>" in run.text: run.text = run.text.replace("<Company>", company_name)`. -/
def substCompany (companyName r : String) : String :=
  if containsStr r "<Company>" then pyReplace r "<Company>" companyName else r

/-- The `<Tier>` replacement of one run, including its guard. -/
def substTier (tier r : String) : String :=
  if containsStr r "<Tier>" then pyReplace r "<Tier>" tier else r

/-- The run loop of `modify_pptx_template` over one paragraph.  `before` and
`after` are the other paragraphs of the same shape (already processed,
respectively still untouched), `done` the runs of this paragraph already
processed; the date guard reads `shape.text` at that instant, i.e. with the
current run already carrying its placeholder substitutions, exactly as the
mutating Python loop does. -/
def processRuns (companyName tier : String) (yr : Nat)
    (before after : List (List String)) (done : List String) :
    List String → List String
  | [] => []
  | r :: rest =>
    let t2 := substTier tier (substCompany companyName r)
    let t3 :=
      if containsStr t2 "31 December" &&
          containsSeq "Valid through".data
            (shapeChars (before ++ (done ++ t2 :: rest) :: after)) then
        subDate ("31 December " ++ toString yr) t2
      else t2
    t3 :: processRuns companyName tier yr before after (done ++ [t3]) rest

/-- The paragraph loop of `modify_pptx_template` over one shape; `before`
accumulates the paragraphs already processed. -/
def processParas (companyName tier : String) (yr : Nat)
    (before : List (List String)) : Frame → Frame
  | [] => []
  | p :: rest =>
    let p2 := processRuns companyName tier yr before rest [] p
    p2 :: processParas companyName tier yr (before ++ [p2]) rest

/-- One shape of `modify_pptx_template`: shapes without a text frame are
skipped by the `hasattr` guard. -/
def processShape (companyName tier : String) (yr : Nat) :
    Option Frame → Option Frame
  | none => none
  | some ps => some (processParas companyName tier yr [] ps)

/-- The text rewriting performed by `modify_pptx_template` between parsing
and re-serialisation, with the wall-clock year (`datetime.now().year`) passed
explicitly. -/
def modifyPres (companyName tier : String) (yr : Nat) (prs : Pres) : Pres :=
  prs.map (fun slide => slide.map (processShape companyName tier yr))

/-! ## Errors, HTTP responses, environment

Python exceptions reaching the handlers are modelled by `PyErr`; `pyStr e`
is Python `str(e)`.  The spec's error taxonomy maps onto these as follows:
InvalidIdentifierFormat and NotFound are the two `ValueError`s raised by the
dispatch, HttpError is `requests.HTTPError` from `raise_for_status`,
TimeoutError is `requests.Timeout`, NetworkError is `requests.RequestException`,
and TemplateError / UploadError are whatever exception the pptx library or
the upload path raises (`otherErr`). -/

instance {ε α : Type} [DecidableEq ε] [DecidableEq α] : DecidableEq (Except ε α)
  | .ok a, .ok b =>
    if h : a = b then .isTrue (by rw [h]) else .isFalse (by intro hh; cases hh; exact h rfl)
  | .ok _, .error _ => .isFalse (by intro h; cases h)
  | .error _, .ok _ => .isFalse (by intro h; cases h)
  | .error a, .error b =>
    if h : a = b then .isTrue (by rw [h]) else .isFalse (by intro hh; cases hh; exact h rfl)

/-- Exceptions that can reach a handler's `except Exception` block. -/
inductive PyErr where
  | valueErr (msg : String)
  | httpErr (status : Nat) (msg : String)
  | timeoutErr (msg : String)
  | netErr (msg : String)
  | otherErr (msg : String)
deriving DecidableEq, Repr

/-- Python `str(e)` for the modelled exceptions (each carries the message it
was constructed with). -/
def pyStr : PyErr → String
  | .valueErr m => m
  | .httpErr _ m => m
  | .timeoutErr m => m
  | .netErr m => m
  | .otherErr m => m

/-- Outcome of one `requests.get`/`requests.post` call: a response with a
status code, reason phrase and body bytes, or a raised transport exception. -/
inductive RespOutcome where
  | resp (status : Nat) (reason : String) (body : List Nat)
  | timeout (msg : String)
  | netFail (msg : String)
deriving DecidableEq, Repr

/-- The message `requests` builds for the `HTTPError` raised by
`raise_for_status`. -/
def httpErrMsg (s : Nat) (reason url : String) : String :=
  toString s ++ (if s < 500 then " Client Error: " else " Server Error: ")
    ++ reason ++ " for url: " ++ url

/-- `response.raise_for_status()` composed with reading the body: statuses in
[400, 500) raise `HTTPError("<s> Client Error: <reason> for url: <url>")`,
statuses in [500, 600) the `Server Error` variant, every other status does
not raise and the body is returned (`response.content`). -/
def respToResult (url : String) : RespOutcome → Except PyErr (List Nat)
  | .timeout m => .error (.timeoutErr m)
  | .netFail m => .error (.netErr m)
  | .resp s reason body =>
    if 400 ≤ s ∧ s < 600 then .error (.httpErr s (httpErrMsg s reason url))
    else .ok body

/-- The JSON body of a successful upload POST, as the code reads it:
`upload_result.get('success')`, `upload_result['id']`, and the textual repr
interpolated into the `"Upload failed: ..."` message. -/
structure UploadJson where
  success : Bool
  id : String
  reprStr : String
deriving DecidableEq, Repr

/-- The JSON payload POSTed to the ContentVersion creation endpoint by
`upload_file_to_salesforce`. -/
structure UploadPayload where
  Title : String
  PathOnClient : String
  VersionData : String
  IsMajorVersion : Bool
  ContentDocumentId : Option String
deriving DecidableEq, Repr

/-- Environment of one handler invocation: the credential URL, the wall-clock
year, and the outcome of every external interaction (HTTP calls, JSON
decoding, pptx parsing and serialisation).  Each field abstracts exactly one
out-of-scope collaborator of the source code. -/
structure Env where
  /-- `creds.url` from `connections.oauth2_auth_code(..)`. -/
  credsUrl : String
  /-- `datetime.now().year` at the time `modify_pptx_template` runs. -/
  year : Nat
  /-- Outcome of the `requests.get(query_url, ...)` ContentVersion lookup. -/
  queryResp : RespOutcome
  /-- `query_response.json().get('records')` with the `Id` of each record:
  `.ok []` models a falsy/absent records list, an error models a JSON or key
  failure. -/
  queryRecords : List Nat → Except PyErr (List String)
  /-- Outcome of the `requests.get(download_url, ...)` blob read. -/
  downloadResp : RespOutcome
  /-- `Presentation(BytesIO(content))`: the parsed text content, or the pptx
  exception raised on a malformed document. -/
  parse : List Nat → Except PyErr Pres
  /-- `prs.save(output_stream)` plus reading the stream back: the serialised
  bytes of the modified presentation, or the exception raised. -/
  serialize : Pres → Except PyErr (List Nat)
  /-- Outcome of the `requests.post(upload_url, json=payload, ...)` call. -/
  uploadPost : UploadPayload → RespOutcome
  /-- `response.json()` of the upload POST response. -/
  uploadPostJson : List Nat → Except PyErr UploadJson
  /-- The follow-up `SELECT ContentDocumentId ...` query for a ContentVersion
  id: its records' `ContentDocumentId` values (the whole round trip,
  including its own `raise_for_status` and JSON decoding). -/
  docIdQuery : String → Except PyErr (List String)

/-- `SALESFORCE_API_VERSION` from the three modules. -/
def apiVersion : String := "v58.0"

/-- The ValueError message of the final `else` branch of the dispatch. -/
def unknownIdMsg (fid : String) : String :=
  "Unknown Salesforce ID format: " ++ fid ++
    ". Expected ContentDocument (069), ContentVersion (068), or Attachment (00P)"

/-- The ValueError message of the empty-records branch of the 069 lookup. -/
def noFileMsg (fid : String) : String :=
  "No file found with ContentDocument ID: " ++ fid

/-- The record-query URL. -/
def queryUrl (baseUrl : String) : String :=
  baseUrl ++ "/services/data/" ++ apiVersion ++ "/query"

/-- The ContentVersion blob URL (`.../ContentVersion/<id>/VersionData`). -/
def cvUrl (baseUrl cvid : String) : String :=
  baseUrl ++ "/services/data/" ++ apiVersion ++
    "/sobjects/ContentVersion/" ++ cvid ++ "/VersionData"

/-- The Attachment blob URL (`.../Attachment/<id>/Body`). -/
def attUrl (baseUrl aid : String) : String :=
  baseUrl ++ "/services/data/" ++ apiVersion ++
    "/sobjects/Attachment/" ++ aid ++ "/Body"

/-- The ContentVersion creation endpoint used by the upload POST. -/
def cvCreateUrl (baseUrl : String) : String :=
  baseUrl ++ "/services/data/" ++ apiVersion ++ "/sobjects/ContentVersion"

/-- The identifier dispatch shared verbatim by the three handlers
(`069`/`068`/`00P` prefixes, lines 169–226 of `salesforce_replace.py` and the
identical blocks of the other two modules): resolves the stripped file id to
the blob download URL, issuing the ContentVersion lookup for a `069` id.
The SOQL query string itself is not modelled (only its outcome, via
`env.queryResp` / `env.queryRecords`). -/
def resolveTarget (env : Env) (baseUrl fid : String) : Except PyErr String :=
  if pyStartsWith fid "069" then
    match respToResult (queryUrl baseUrl) env.queryResp with
    | .error e => .error e
    | .ok body =>
      match env.queryRecords body with
      | .error e => .error e
      | .ok [] => .error (.valueErr (noFileMsg fid))
      | .ok (cvid :: _) => .ok (cvUrl baseUrl cvid)
  else if pyStartsWith fid "068" then .ok (cvUrl baseUrl fid)
  else if pyStartsWith fid "00P" then .ok (attUrl baseUrl fid)
  else .error (.valueErr (unknownIdMsg fid))

/-- The blob download (`requests.get(download_url, ...)` followed by
`response.raise_for_status()` and `response.content`). -/
def doDownload (env : Env) (url : String) : Except PyErr (List Nat) :=
  respToResult url env.downloadResp

/-- `modify_pptx_template` on bytes: parse, rewrite the text runs, and
re-serialise; the `except ... raise` of the source re-raises unchanged, so
a parse or serialisation failure propagates as-is. -/
def modifyBytes (env : Env) (content : List Nat) (companyName tier : String) :
    Except PyErr (List Nat) :=
  match env.parse content with
  | .error e => .error e
  | .ok prs => env.serialize (modifyPres companyName tier env.year prs)

/-! ## `salesforce_simple.py` -/

/-- Input model of `salesforce_simple.py`. -/
structure SimpleInput where
  file_id : String
deriving DecidableEq, Repr

/-- The `try` body of `salesforce_download_file` in `salesforce_simple.py`:
strip, validate non-empty, resolve, download, return the bytes. -/
def handlerSimpleTry (env : Env) (input : SimpleInput) : Except PyErr (List Nat) :=
  let fid := pyStrip input.file_id
  if fid = "" then .error (.valueErr "file_id cannot be empty")
  else
    match resolveTarget env (pyRstripChar env.credsUrl '/') fid with
    | .error e => .error e
    | .ok url => doDownload env url

/-- `salesforce_download_file` of `salesforce_simple.py`: the whole `try` is
wrapped in `except Exception`, which stringifies the exception and returns
`"Error downloading file from Salesforce: ..."` UTF-8 encoded. -/
def handlerSimple (env : Env) (input : SimpleInput) : List Nat :=
  match handlerSimpleTry env input with
  | .ok bytes => bytes
  | .error e => encodeStr ("Error downloading file from Salesforce: " ++ pyStr e)

/-! ## `salesforce_replace.py` -/

/-- Input model of `salesforce_replace.py`. -/
structure ReplaceInput where
  file_id : String
  company_name : String
  tier : String
deriving DecidableEq, Repr

/-- The `try` body of `salesforce_download_file` in `salesforce_replace.py`:
strip inputs, validate, resolve, download, rewrite the template, return the
modified bytes. -/
def handlerReplaceTry (env : Env) (input : ReplaceInput) : Except PyErr (List Nat) :=
  let fid := pyStrip input.file_id
  let companyName := pyStrip input.company_name
  let tier := pyStrip input.tier
  if fid = "" then .error (.valueErr "file_id cannot be empty")
  else
    match resolveTarget env (pyRstripChar env.credsUrl '/') fid with
    | .error e => .error e
    | .ok url =>
      match doDownload env url with
      | .error e => .error e
      | .ok content => modifyBytes env content companyName tier

/-- `salesforce_download_file` of `salesforce_replace.py`: every exception is
caught, stringified and returned as
`"Error processing file from Salesforce: ..."` UTF-8 encoded. -/
def handlerReplace (env : Env) (input : ReplaceInput) : List Nat :=
  match handlerReplaceTry env input with
  | .ok bytes => bytes
  | .error e => encodeStr ("Error processing file from Salesforce: " ++ pyStr e)

/-! ## `salesforce_upload.py` -/

/-- Input model of `salesforce_upload.py`. -/
structure UploadInput where
  file_id : String
  company_name : String
  tier : String
  upload_back_to_salesforce : Bool
  title : String
deriving DecidableEq, Repr

/-- The result dict of `upload_file_to_salesforce`. -/
structure UploadResult where
  success : Bool
  content_version_id : String
  content_document_id : Option String
  title : String
  message : String
deriving DecidableEq, Repr

/-- The payload built by `upload_file_to_salesforce`: title, client path
`title + ".pptx"`, base64-encoded bytes, `IsMajorVersion: True`, and the
`ContentDocumentId` key only when `original_content_document_id` is truthy
(Python `if original_content_document_id:` — `None` and `""` both skip). -/
def mkUploadPayload (title : String) (fileContent : List Nat)
    (origDocId : Option String) : UploadPayload :=
  { Title := title
    PathOnClient := title ++ ".pptx"
    VersionData := String.mk (b64encode fileContent)
    IsMajorVersion := true
    ContentDocumentId :=
      match origDocId with
      | none => none
      | some d => if d = "" then none else some d }

/-- `upload_file_to_salesforce` (lines 126–218 of `salesforce_upload.py`):
build the payload, POST it, `raise_for_status`, read the JSON; on
`success`, run the follow-up ContentDocumentId query and return the result
dict, otherwise raise `ValueError("Upload failed: ...")`.  The returned pair
also exposes the payload that was POSTed, for stating properties of the
request body; the first component is the function's Python behaviour. -/
def upload_file_to_salesforce (env : Env) (baseUrl : String)
    (fileContent : List Nat) (title : String) (origDocId : Option String) :
    Except PyErr UploadResult × UploadPayload :=
  let payload := mkUploadPayload title fileContent origDocId
  let res : Except PyErr UploadResult :=
    match respToResult (cvCreateUrl baseUrl) (env.uploadPost payload) with
    | .error e => .error e
    | .ok body =>
      match env.uploadPostJson body with
      | .error e => .error e
      | .ok j =>
        if j.success then
          match env.docIdQuery j.id with
          | .error e => .error e
          | .ok recs =>
            .ok { success := true
                  content_version_id := j.id
                  content_document_id := recs.head?
                  title := title
                  message := "File uploaded successfully to Salesforce" }
        else .error (.valueErr ("Upload failed: " ++ j.reprStr))
  (res, payload)

/-- The dynamic-title computation of lines 359–365 of `salesforce_upload.py`
(applied to the already-stripped title, company name and tier). -/
def dynamicTitle (title companyName tier : String) : String :=
  if title = "Partner_Plus_Certificate" then
    "Partner_Plus_Certificate_" ++ tier ++ "_" ++
      pyReplace (pyReplace companyName " " "_") "/" "_"
  else title

/-- The `try` body of `salesforce_download_file` in `salesforce_upload.py`,
instrumented: the first component is the Python result (modified bytes or
the exception), the second records the payload POSTed to the creation
endpoint, `none` when no POST was attempted.  The handler always passes
`original_content_document_id=None` to the upload (line 376). -/
def handlerUploadRun (env : Env) (input : UploadInput) :
    Except PyErr (List Nat) × Option UploadPayload :=
  let fid := pyStrip input.file_id
  let companyName := pyStrip input.company_name
  let tier := pyStrip input.tier
  let title := pyStrip input.title
  if fid = "" then (.error (.valueErr "file_id cannot be empty"), none)
  else
    match resolveTarget env (pyRstripChar env.credsUrl '/') fid with
    | .error e => (.error e, none)
    | .ok url =>
      match doDownload env url with
      | .error e => (.error e, none)
      | .ok content =>
        match modifyBytes env content companyName tier with
        | .error e => (.error e, none)
        | .ok modified =>
          let dynTitle := dynamicTitle title companyName tier
          if input.upload_back_to_salesforce then
            match upload_file_to_salesforce env (pyRstripChar env.credsUrl '/')
                modified dynTitle none with
            | (.error e, payload) => (.error e, some payload)
            | (.ok _, payload) => (.ok modified, some payload)
          else (.ok modified, none)

/-- `salesforce_download_file` of `salesforce_upload.py`: catch-all boundary
returning `"Error processing file from Salesforce: ..."` UTF-8 encoded on any
exception, the modified bytes otherwise. -/
def handlerUpload (env : Env) (input : UploadInput) : List Nat :=
  match (handlerUploadRun env input).1 with
  | .ok bytes => bytes
  | .error e => encodeStr ("Error processing file from Salesforce: " ++ pyStr e)

/-! ## A concrete environment for instantiating the theorems -/

/-- A concrete fully-successful environment; individual scenarios override
single fields. -/
def envBase : Env :=
  { credsUrl := "https://example.my.salesforce.com/"
    year := 2025
    queryResp := .resp 200 "OK" [123]
    queryRecords := fun _ => .ok ["068AAA000011122233"]
    downloadResp := .resp 200 "OK" [80, 75, 3, 4]
    parse := fun _ => .ok [[some [["Hello"]]]]
    serialize := fun _ => .ok [80, 75, 9, 9]
    uploadPost := fun _ => .resp 201 "Created" [7]
    uploadPostJson := fun _ => .ok { success := true, id := "068NEW00000000001AAA", reprStr := "ok" }
    docIdQuery := fun _ => .ok ["069DOC00000000001AAA"] }

/-- A run on which the rewriting loop is the identity: no placeholder token,
and no `"31 December"` inside a shape whose text contains `"Valid through"`
(the `shape` argument is the shape the run belongs to). -/
def benignRun (shape : Frame) (r : String) : Bool :=
  !containsStr r "<Company>" && !containsStr r "<Tier>" &&
    (!containsStr r "31 December" ||
      !containsSeq "Valid through".data (shapeChars shape))

/-- A presentation all of whose runs are benign. -/
def benignPres (prs : Pres) : Bool :=
  prs.all fun slide =>
    slide.all fun sh =>
      match sh with
      | none => true
      | some ps => ps.all fun p => p.all (benignRun ps)

/-- The certificate run of the spec's worked example, before rewriting. -/
def certRunIn : String :=
  "Certificate for <Company>, Tier: <Tier>. Valid through 31 December 2019."

/-- The certificate run after the placeholder substitutions only. -/
def certRunMid : String :=
  "Certificate for Acme, Tier: Gold. Valid through 31 December 2019."

/-- The certificate run after rewriting in the year 2025. -/
def certRunOut : String :=
  "Certificate for Acme, Tier: Gold. Valid through 31 December 2025."

/-! ## Helper lemmas -/

theorem startsSeq_append {pat s : List Char} (y : List Char)
    (h : startsSeq pat s = true) : startsSeq pat (s ++ y) = true := by
  induction pat generalizing s with
  | nil => simp [startsSeq]
  | cons p ps ih =>
    cases s with
    | nil => simp [startsSeq] at h
    | cons c cs =>
      simp only [startsSeq, Bool.and_eq_true, List.cons_append] at h ⊢
      exact ⟨h.1, ih h.2⟩

theorem containsSeq_nil_pat (l : List Char) : containsSeq [] l = true := by
  cases l <;> simp [containsSeq, startsSeq]

theorem containsSeq_append_left {pat s : List Char} (x : List Char)
    (h : containsSeq pat s = true) : containsSeq pat (x ++ s) = true := by
  induction x with
  | nil => simpa using h
  | cons c cs ih =>
    simp only [List.cons_append, containsSeq, Bool.or_eq_true]
    exact Or.inr ih

theorem containsSeq_append_right {pat s : List Char} (y : List Char)
    (h : containsSeq pat s = true) : containsSeq pat (s ++ y) = true := by
  induction s with
  | nil =>
    cases pat with
    | nil => exact containsSeq_nil_pat y
    | cons p ps => simp [containsSeq, startsSeq] at h
  | cons c cs ih =>
    simp only [containsSeq, Bool.or_eq_true, List.cons_append] at h ⊢
    rcases h with h | h
    · exact Or.inl (by simpa using startsSeq_append (s := c :: cs) y h)
    · exact Or.inr (ih h)

theorem paraChars_cons (r : String) (rs : List String) :
    paraChars (r :: rs) = r.data ++ paraChars rs := by
  simp [paraChars]

theorem containsSeq_paraChars {pat : List Char} {r : String} {rs : List String}
    (hmem : r ∈ rs) (h : containsSeq pat r.data = true) :
    containsSeq pat (paraChars rs) = true := by
  induction rs with
  | nil => cases hmem
  | cons s rest ih =>
    rw [paraChars_cons]
    rcases List.mem_cons.mp hmem with h1 | h1
    · subst h1; exact containsSeq_append_right _ h
    · exact containsSeq_append_left _ (ih h1)

theorem containsSeq_shapeChars {pat : List Char} {p : List String} {ps : Frame}
    (hmem : p ∈ ps) (h : containsSeq pat (paraChars p) = true) :
    containsSeq pat (shapeChars ps) = true := by
  induction ps with
  | nil => cases hmem
  | cons q rest ih =>
    rcases List.mem_cons.mp hmem with h1 | h1
    · subst h1
      cases rest with
      | nil => simpa [shapeChars] using h
      | cons a b =>
        rw [shapeChars]
        exact containsSeq_append_right _ h
    · cases rest with
      | nil => cases h1
      | cons a b =>
        rw [shapeChars]
        have h3 : containsSeq pat ('\n' :: shapeChars (a :: b)) = true := by
          simpa using containsSeq_append_left ['\n'] (ih h1)
        exact containsSeq_append_left _ h3

theorem strData_append (a b : String) : (a ++ b).data = a.data ++ b.data := by
  cases a; cases b; rfl

theorem encodeChars_append (a b : List Char) :
    encodeChars (a ++ b) = encodeChars a ++ encodeChars b := by
  induction a with
  | nil => rfl
  | cons c cs ih => simp [encodeChars, ih]

theorem encodeStr_append (a b : String) :
    encodeStr (a ++ b) = encodeStr a ++ encodeStr b := by
  unfold encodeStr
  rw [strData_append, encodeChars_append]

theorem isPrefixOf_append_self (a b : List Nat) :
    List.isPrefixOf a (a ++ b) = true := by
  induction a with
  | nil => simp [List.isPrefixOf]
  | cons c cs ih => simp [List.isPrefixOf, ih]

theorem pyStartsWith_ne_empty {fid pat : String} (hpat : pat.data ≠ [])
    (h : pyStartsWith fid pat = true) : fid ≠ "" := by
  intro hfid
  subst hfid
  cases hp : pat.data with
  | nil => exact hpat hp
  | cons c cs =>
    rw [pyStartsWith, hp] at h
    simp [startsSeq] at h

theorem map_self_of_mem {α : Type} {f : α → α} :
    ∀ l : List α, (∀ x ∈ l, f x = x) → l.map f = l := by
  intro l
  induction l with
  | nil => intro _; rfl
  | cons a as ih =>
    intro h
    simp only [List.map_cons]
    rw [h a (List.mem_cons_self a as), ih fun x hx => h x (List.mem_cons_of_mem _ hx)]

theorem processRuns_benign (companyName tier : String) (yr : Nat) :
    ∀ (todo done : List String) (before after : List (List String)),
      (∀ r ∈ todo, benignRun (before ++ (done ++ todo) :: after) r = true) →
      processRuns companyName tier yr before after done todo = todo := by
  intro todo
  induction todo with
  | nil => intro done before after _; rfl
  | cons r rest ih =>
    intro done before after h
    have hr := h r (List.mem_cons_self r rest)
    simp only [benignRun, Bool.and_eq_true, Bool.or_eq_true, Bool.not_eq_true'] at hr
    obtain ⟨⟨hc, ht⟩, hdate⟩ := hr
    have e2 : substTier tier (substCompany companyName r) = r := by
      simp [substCompany, substTier, hc, ht]
    rw [processRuns]
    simp only [e2]
    have hg : (containsStr r "31 December" && containsSeq "Valid through".data
        (shapeChars (before ++ (done ++ r :: rest) :: after))) = false := by
      rcases hdate with h1 | h1
      · rw [h1, Bool.false_and]
      · rw [h1, Bool.and_false]
    rw [hg]
    simp only [Bool.false_eq_true, if_false, List.cons.injEq, true_and]
    apply ih (done ++ [r]) before after
    intro r2 hr2
    have h2 := h r2 (List.mem_cons_of_mem _ hr2)
    simpa [List.append_assoc] using h2

theorem processParas_benign (companyName tier : String) (yr : Nat) :
    ∀ (todo before : Frame),
      (∀ p ∈ todo, ∀ r ∈ p, benignRun (before ++ todo) r = true) →
      processParas companyName tier yr before todo = todo := by
  intro todo
  induction todo with
  | nil => intro before _; rfl
  | cons p rest ih =>
    intro before h
    rw [processParas]
    have hp : processRuns companyName tier yr before rest [] p = p := by
      apply processRuns_benign companyName tier yr p [] before rest
      intro r hrm
      have h2 := h p (List.mem_cons_self p rest) r hrm
      simpa using h2
    simp only [hp, List.cons.injEq, true_and]
    apply ih (before ++ [p])
    intro q hq r hr
    have h2 := h q (List.mem_cons_of_mem _ hq) r hr
    simpa [List.append_assoc] using h2

/-! ## Claims C2, C3, C4: the template rewriter -/

/-- Claim C2: a run whose text is
`"Certificate for <Company>, Tier: <Tier>. Valid through 31 December 2019."`,
wherever it sits inside a shape (such a shape's full text contains
`"Valid through"`, since the run itself does), is rewritten with
company `"Acme"`, tier `"Gold"` and wall-clock year 2025 to
`"Certificate for Acme, Tier: Gold. Valid through 31 December 2025."`;
in particular this holds for the one-run presentation. -/
theorem claim_c2 :
    (∀ before after done rest,
      processRuns "Acme" "Gold" 2025 before after done (certRunIn :: rest) =
        certRunOut ::
          processRuns "Acme" "Gold" 2025 before after (done ++ [certRunOut]) rest) ∧
    modifyPres "Acme" "Gold" 2025 [[some [[certRunIn]]]] =
      [[some [[certRunOut]]]] := by
  constructor
  · intro before after done rest
    have e2 : substTier "Gold" (substCompany "Acme" certRunIn) = certRunMid := by
      decide
    rw [processRuns]
    simp only [e2]
    have h31 : containsStr certRunMid "31 December" = true := by decide
    have hVT : containsSeq "Valid through".data
        (shapeChars (before ++ (done ++ certRunMid :: rest) :: after)) = true := by
      apply containsSeq_shapeChars (p := done ++ certRunMid :: rest) (by simp)
      apply containsSeq_paraChars (r := certRunMid) (by simp)
      decide
    rw [h31, hVT]
    have hsub : subDate ("31 December " ++ toString 2025) certRunMid = certRunOut := by
      decide
    simp [hsub]
  · decide

/-- Claim C3 counterexample: the one-run presentation
`"Valid through 31 December 2019"` contains neither `"<Company>"` nor
`"<Tier>"`, yet the rewriter (wall-clock year 2025) changes its text run. -/
theorem claim_c3_cex :
    containsStr "Valid through 31 December 2019" "<Company>" = false ∧
    containsStr "Valid through 31 December 2019" "<Tier>" = false ∧
    modifyPres "Acme" "Gold" 2025 [[some [["Valid through 31 December 2019"]]]] =
      [[some [["Valid through 31 December 2025"]]]] ∧
    [[some [["Valid through 31 December 2025"]]]] ≠
      ([[some [["Valid through 31 December 2019"]]]] : Pres) := by decide

/-- Claim C3 (amended): the rewriter is the identity on presentations none of
whose runs contains a placeholder token, and none of whose runs inside a
shape whose full text contains `"Valid through"` contains `"31 December"`. -/
theorem claim_c3 (companyName tier : String) (yr : Nat) (prs : Pres)
    (h : benignPres prs = true) :
    modifyPres companyName tier yr prs = prs := by
  unfold benignPres at h
  unfold modifyPres
  apply map_self_of_mem
  intro slide hslide
  apply map_self_of_mem
  intro sh hsh
  have hslide2 := List.all_eq_true.mp h slide hslide
  have hsh2 := List.all_eq_true.mp hslide2 sh hsh
  cases sh with
  | none => rfl
  | some ps =>
    show Option.some _ = _
    rw [processParas_benign companyName tier yr ps []]
    intro p hp r hr
    have h2 := List.all_eq_true.mp (List.all_eq_true.mp hsh2 p hp) r hr
    simpa using h2

/-- Witness for claim C3: a concrete benign presentation is left unchanged. -/
theorem claim_c3_witness :
    benignPres [[some [["Hello world"], ["31 December 2019"]], none]] = true ∧
    modifyPres "Acme" "Gold" 2025
        [[some [["Hello world"], ["31 December 2019"]], none]] =
      [[some [["Hello world"], ["31 December 2019"]], none]] :=
  ⟨by decide,
   claim_c3 "Acme" "Gold" 2025
     [[some [["Hello world"], ["31 December 2019"]], none]] (by decide)⟩

/-- Claim C4 counterexample: the input shape `["<Company>", "31 December 2019"]`
has aggregate text without `"Valid through"`, yet with company name
`"Valid through X"` (wall-clock year 2025) the second run's date IS rewritten,
because the loop re-reads `shape.text` after substituting earlier runs. -/
theorem claim_c4_cex :
    containsSeq "Valid through".data
        (shapeChars [["<Company>", "31 December 2019"]]) = false ∧
    containsStr "31 December 2019" "31 December 2019" = true ∧
    modifyPres "Valid through X" "Gold" 2025
        [[some [["<Company>", "31 December 2019"]]]] =
      [[some [["Valid through X", "31 December 2025"]]]] := by decide

/-- Claim C4 (amended): a run is not date-rewritten whenever the enclosing
shape's aggregate text, at the moment the run is examined (earlier runs
already substituted, the run itself already carrying its placeholder
substitutions), does not contain `"Valid through"`: the run's output text is
exactly its placeholder-substituted text. -/
theorem claim_c4 (companyName tier : String) (yr : Nat)
    (before after : List (List String)) (done : List String) (r : String)
    (rest : List String)
    (h : containsSeq "Valid through".data
      (shapeChars (before ++
        (done ++ substTier tier (substCompany companyName r) :: rest) :: after)) =
      false) :
    processRuns companyName tier yr before after done (r :: rest) =
      substTier tier (substCompany companyName r) ::
        processRuns companyName tier yr before after
          (done ++ [substTier tier (substCompany companyName r)]) rest := by
  rw [processRuns]
  simp only [h, Bool.and_false, Bool.false_eq_true, if_false]

/-- Witness for claim C4: the singleton shape `["31 December 2019"]` with
company `"Acme"` never sees `"Valid through"`, so the run keeps its text. -/
theorem claim_c4_witness :
    containsSeq "Valid through".data
        (shapeChars ([] ++
          (([] : List String) ++
            substTier "Gold" (substCompany "Acme" "31 December 2019") ::
              ([] : List String)) :: ([] : Frame))) = false ∧
    processRuns "Acme" "Gold" 2025 [] [] [] ("31 December 2019" :: []) =
      substTier "Gold" (substCompany "Acme" "31 December 2019") ::
        processRuns "Acme" "Gold" 2025 [] []
          ([] ++ [substTier "Gold" (substCompany "Acme" "31 December 2019")]) [] :=
  ⟨by decide,
   claim_c4 "Acme" "Gold" 2025 [] [] [] "31 December 2019" [] (by decide)⟩

/-! ## Claims C5, C6, C7, C8: the resolver, retriever and rewriter failures -/

theorem startsSeq_068_069 (l : List Char)
    (h : startsSeq ['0', '6', '8'] l = true) :
    startsSeq ['0', '6', '9'] l = false := by
  match l with
  | [] => simp [startsSeq] at h
  | [a] => simp [startsSeq] at h
  | [a, b] => simp [startsSeq] at h
  | a :: b :: c :: rest =>
    simp only [startsSeq, Bool.and_eq_true, beq_iff_eq] at h ⊢
    obtain ⟨ha, hb, hc, -⟩ := h
    subst hc
    simp

theorem not069_of_068 {fid : String} (h : pyStartsWith fid "068" = true) :
    pyStartsWith fid "069" = false := by
  unfold pyStartsWith at h ⊢
  exact startsSeq_068_069 _ h

/-- Claim C5: a stripped identifier (non-empty, per the resolver's input
contract) starting with none of `069`, `068`, `00P` makes both download
handlers fail with the invalid-identifier `ValueError`, whose message names
all three accepted prefixes. -/
theorem claim_c5 (env : Env) (raw companyName tier : String)
    (h0 : pyStrip raw ≠ "")
    (h1 : pyStartsWith (pyStrip raw) "069" = false)
    (h2 : pyStartsWith (pyStrip raw) "068" = false)
    (h3 : pyStartsWith (pyStrip raw) "00P" = false) :
    handlerSimpleTry env { file_id := raw } =
      .error (.valueErr (unknownIdMsg (pyStrip raw))) ∧
    handlerReplaceTry env
        { file_id := raw, company_name := companyName, tier := tier } =
      .error (.valueErr (unknownIdMsg (pyStrip raw))) ∧
    containsStr (unknownIdMsg (pyStrip raw)) "069" = true ∧
    containsStr (unknownIdMsg (pyStrip raw)) "068" = true ∧
    containsStr (unknownIdMsg (pyStrip raw)) "00P" = true := by
  have hres : resolveTarget env (pyRstripChar env.credsUrl '/') (pyStrip raw) =
      .error (.valueErr (unknownIdMsg (pyStrip raw))) := by
    unfold resolveTarget
    simp [h1, h2, h3]
  refine ⟨?_, ?_, ?_, ?_, ?_⟩
  · simp [handlerSimpleTry, h0, hres]
  · simp [handlerReplaceTry, h0, hres]
  · unfold containsStr unknownIdMsg
    rw [strData_append, strData_append]
    exact containsSeq_append_left _ (by decide)
  · unfold containsStr unknownIdMsg
    rw [strData_append, strData_append]
    exact containsSeq_append_left _ (by decide)
  · unfold containsStr unknownIdMsg
    rw [strData_append, strData_append]
    exact containsSeq_append_left _ (by decide)

/-- Witness for claim C5 at the identifier `"ABC123"`. -/
theorem claim_c5_witness :
    handlerSimpleTry envBase { file_id := "ABC123" } =
      .error (.valueErr (unknownIdMsg (pyStrip "ABC123"))) ∧
    containsStr (unknownIdMsg (pyStrip "ABC123")) "069" = true ∧
    containsStr (unknownIdMsg (pyStrip "ABC123")) "068" = true ∧
    containsStr (unknownIdMsg (pyStrip "ABC123")) "00P" = true :=
  ⟨(claim_c5 envBase "ABC123" "Acme" "Gold"
      (by decide) (by decide) (by decide) (by decide)).1,
   (claim_c5 envBase "ABC123" "Acme" "Gold"
      (by decide) (by decide) (by decide) (by decide)).2.2.1,
   (claim_c5 envBase "ABC123" "Acme" "Gold"
      (by decide) (by decide) (by decide) (by decide)).2.2.2.1,
   (claim_c5 envBase "ABC123" "Acme" "Gold"
      (by decide) (by decide) (by decide) (by decide)).2.2.2.2⟩

/-- Claim C6: a `069` identifier whose current-version lookup succeeds but
returns zero records makes both download handlers fail with the
`"No file found with ContentDocument ID: ..."` `ValueError` (the spec's
NotFound). -/
theorem claim_c6 (env : Env) (raw companyName tier : String) (st : Nat)
    (reason : String) (body : List Nat)
    (h069 : pyStartsWith (pyStrip raw) "069" = true)
    (hresp : env.queryResp = .resp st reason body)
    (hok : ¬(400 ≤ st ∧ st < 600))
    (hrec : env.queryRecords body = .ok []) :
    handlerSimpleTry env { file_id := raw } =
      .error (.valueErr (noFileMsg (pyStrip raw))) ∧
    handlerReplaceTry env
        { file_id := raw, company_name := companyName, tier := tier } =
      .error (.valueErr (noFileMsg (pyStrip raw))) := by
  have hne : pyStrip raw ≠ "" := pyStartsWith_ne_empty (by decide) h069
  have hres : resolveTarget env (pyRstripChar env.credsUrl '/') (pyStrip raw) =
      .error (.valueErr (noFileMsg (pyStrip raw))) := by
    unfold resolveTarget
    simp only [h069, if_true]
    rw [hresp]
    simp only [respToResult]
    rw [if_neg hok]
    show (match env.queryRecords body with
      | .error e => Except.error e
      | .ok [] => Except.error (.valueErr (noFileMsg (pyStrip raw)))
      | .ok (cvid :: _) => Except.ok (cvUrl (pyRstripChar env.credsUrl '/') cvid)) = _
    rw [hrec]
  constructor
  · simp [handlerSimpleTry, hne, hres]
  · simp [handlerReplaceTry, hne, hres]

/-- Witness for claim C6: an empty records list for `"069XYZ"`. -/
theorem claim_c6_witness :
    handlerSimpleTry { envBase with queryRecords := fun _ => .ok [] }
        { file_id := "069XYZ" } =
      .error (.valueErr (noFileMsg (pyStrip "069XYZ"))) :=
  (claim_c6 { envBase with queryRecords := fun _ => .ok [] } "069XYZ"
    "Acme" "Gold" 200 "OK" [123] (by decide) rfl (by decide) rfl).1

/-- Claim C7 counterexample: a 304 response (non-2xx) from the blob endpoint
does NOT fail — `raise_for_status` only raises for 4xx/5xx — and the handler
returns the (empty) body as the document. -/
theorem claim_c7_cex :
    ({ envBase with downloadResp := .resp 304 "Not Modified" [] } : Env).downloadResp =
      .resp 304 "Not Modified" [] ∧
    (304 < 200 ∨ 300 ≤ 304) ∧
    handlerSimpleTry { envBase with downloadResp := .resp 304 "Not Modified" [] }
        { file_id := "068B" } = .ok [] := by decide

/-- Claim C7 (amended): a 4xx or 5xx response from the blob endpoint makes
the retriever fail with `HTTPError` carrying the original status code; no
document is produced and the handlers return the error text. -/
theorem claim_c7 (env : Env) (raw companyName tier : String) (st : Nat)
    (reason : String) (body : List Nat)
    (h068 : pyStartsWith (pyStrip raw) "068" = true)
    (hresp : env.downloadResp = .resp st reason body)
    (h400 : 400 ≤ st) (h600 : st < 600) :
    handlerSimpleTry env { file_id := raw } =
      .error (.httpErr st (httpErrMsg st reason
        (cvUrl (pyRstripChar env.credsUrl '/') (pyStrip raw)))) ∧
    handlerReplaceTry env
        { file_id := raw, company_name := companyName, tier := tier } =
      .error (.httpErr st (httpErrMsg st reason
        (cvUrl (pyRstripChar env.credsUrl '/') (pyStrip raw)))) ∧
    handlerSimple env { file_id := raw } =
      encodeStr ("Error downloading file from Salesforce: " ++
        httpErrMsg st reason (cvUrl (pyRstripChar env.credsUrl '/') (pyStrip raw))) ∧
    handlerReplace env
        { file_id := raw, company_name := companyName, tier := tier } =
      encodeStr ("Error processing file from Salesforce: " ++
        httpErrMsg st reason (cvUrl (pyRstripChar env.credsUrl '/') (pyStrip raw))) := by
  have hne : pyStrip raw ≠ "" := pyStartsWith_ne_empty (by decide) h068
  have hres : resolveTarget env (pyRstripChar env.credsUrl '/') (pyStrip raw) =
      .ok (cvUrl (pyRstripChar env.credsUrl '/') (pyStrip raw)) := by
    unfold resolveTarget
    simp [not069_of_068 h068, h068]
  have hdl : doDownload env (cvUrl (pyRstripChar env.credsUrl '/') (pyStrip raw)) =
      .error (.httpErr st (httpErrMsg st reason
        (cvUrl (pyRstripChar env.credsUrl '/') (pyStrip raw)))) := by
    unfold doDownload
    rw [hresp]
    simp only [respToResult]
    rw [if_pos ⟨h400, h600⟩]
  have hsim : handlerSimpleTry env { file_id := raw } =
      .error (.httpErr st (httpErrMsg st reason
        (cvUrl (pyRstripChar env.credsUrl '/') (pyStrip raw)))) := by
    simp [handlerSimpleTry, hne, hres, hdl]
  have hrep : handlerReplaceTry env
      { file_id := raw, company_name := companyName, tier := tier } =
      .error (.httpErr st (httpErrMsg st reason
        (cvUrl (pyRstripChar env.credsUrl '/') (pyStrip raw)))) := by
    simp [handlerReplaceTry, hne, hres, hdl]
  refine ⟨hsim, hrep, ?_, ?_⟩
  · unfold handlerSimple
    rw [hsim]
    rfl
  · unfold handlerReplace
    rw [hrep]
    rfl


/-- Witness for claim C7 at a 404 from the blob endpoint. -/
theorem claim_c7_witness :
    handlerSimpleTry { envBase with downloadResp := .resp 404 "Not Found" [] }
        { file_id := "068B" } =
      .error (.httpErr 404 (httpErrMsg 404 "Not Found"
        (cvUrl (pyRstripChar
          ({ envBase with downloadResp := .resp 404 "Not Found" [] } : Env).credsUrl '/')
          (pyStrip "068B")))) :=
  (claim_c7 { envBase with downloadResp := .resp 404 "Not Found" [] } "068B"
    "Acme" "Gold" 404 "Not Found" [] (by decide) rfl (by decide) (by decide)).1

/-- Claim C8: when parsing or re-serialisation of the downloaded bytes fails,
`modify_pptx_template` fails with the propagated exception (the spec's
TemplateError) and the handler returns the stringified error text — never the
originally downloaded bytes. -/
theorem claim_c8 (env : Env) (raw companyName tier : String) (st : Nat)
    (reason : String) (body : List Nat) (e : PyErr)
    (h068 : pyStartsWith (pyStrip raw) "068" = true)
    (hresp : env.downloadResp = .resp st reason body)
    (hok : ¬(400 ≤ st ∧ st < 600))
    (hfail : env.parse body = .error e ∨
      ∃ prs, env.parse body = .ok prs ∧
        env.serialize (modifyPres (pyStrip companyName) (pyStrip tier)
          env.year prs) = .error e) :
    modifyBytes env body (pyStrip companyName) (pyStrip tier) = .error e ∧
    handlerReplaceTry env
        { file_id := raw, company_name := companyName, tier := tier } =
      .error e ∧
    handlerReplace env
        { file_id := raw, company_name := companyName, tier := tier } =
      encodeStr ("Error processing file from Salesforce: " ++ pyStr e) := by
  have hne : pyStrip raw ≠ "" := pyStartsWith_ne_empty (by decide) h068
  have hres : resolveTarget env (pyRstripChar env.credsUrl '/') (pyStrip raw) =
      .ok (cvUrl (pyRstripChar env.credsUrl '/') (pyStrip raw)) := by
    unfold resolveTarget
    simp [not069_of_068 h068, h068]
  have hdl : doDownload env (cvUrl (pyRstripChar env.credsUrl '/') (pyStrip raw)) =
      .ok body := by
    unfold doDownload
    rw [hresp]
    simp only [respToResult]
    rw [if_neg hok]
  have hmod : modifyBytes env body (pyStrip companyName) (pyStrip tier) =
      .error e := by
    rcases hfail with hp | ⟨prs, hp, hs⟩
    · simp [modifyBytes, hp]
    · simp [modifyBytes, hp, hs]
  have htry : handlerReplaceTry env
      { file_id := raw, company_name := companyName, tier := tier } = .error e := by
    simp [handlerReplaceTry, hne, hres, hdl, hmod]
  refine ⟨hmod, htry, ?_⟩
  unfold handlerReplace
  rw [htry]

/-- Witness for claim C8: a parse failure on the downloaded bytes. -/
theorem claim_c8_witness :
    handlerReplace { envBase with parse := fun _ => .error (.otherErr "bad zip") }
        { file_id := "068B", company_name := "Acme", tier := "Gold" } =
      encodeStr ("Error processing file from Salesforce: " ++
        pyStr (.otherErr "bad zip")) :=
  (claim_c8 { envBase with parse := fun _ => .error (.otherErr "bad zip") } "068B"
    "Acme" "Gold" 200 "OK" [80, 75, 3, 4] (.otherErr "bad zip")
    (by decide) rfl (by decide) (Or.inl rfl)).2.2

/-! ## Claims C9, C10: the upload payload -/

theorem uploadRun_obs {env : Env} {input : UploadInput} {p : UploadPayload}
    (h : (handlerUploadRun env input).2 = some p) :
    ∃ m, p = mkUploadPayload
      (dynamicTitle (pyStrip input.title) (pyStrip input.company_name)
        (pyStrip input.tier)) m none := by
  simp only [handlerUploadRun] at h
  split at h
  · simp at h
  split at h
  · simp at h
  split at h
  · simp at h
  split at h
  · simp at h
  rename_i modified hmodified
  split at h
  · split at h
    · rename_i e payload heq
      simp only [Prod.snd, Option.some.injEq] at h
      have h4 : mkUploadPayload
          (dynamicTitle (pyStrip input.title) (pyStrip input.company_name)
            (pyStrip input.tier)) modified none = payload :=
        congrArg Prod.snd heq
      exact ⟨modified, by rw [← h, ← h4]⟩
    · rename_i res payload heq
      simp only [Prod.snd, Option.some.injEq] at h
      have h4 : mkUploadPayload
          (dynamicTitle (pyStrip input.title) (pyStrip input.company_name)
            (pyStrip input.tier)) modified none = payload :=
        congrArg Prod.snd heq
      exact ⟨modified, by rw [← h, ← h4]⟩
  · simp at h

/-- Claim C9: the uploading handler never passes a link-to-existing-container
identifier — every POSTed creation payload has no `ContentDocumentId` — and
when the pipeline reaches the upload, the POSTed body is exactly
`{Title, PathOnClient = Title + ".pptx", VersionData = base64(bytes),
IsMajorVersion = true}` for the modified bytes. -/
theorem claim_c9 :
    (∀ (env : Env) (input : UploadInput) (p : UploadPayload),
      (handlerUploadRun env input).2 = some p → p.ContentDocumentId = none) ∧
    (∀ (env : Env) (input : UploadInput) (st : Nat) (reason : String)
      (body modified : List Nat) (prs : Pres),
      input.upload_back_to_salesforce = true →
      pyStartsWith (pyStrip input.file_id) "068" = true →
      env.downloadResp = .resp st reason body →
      ¬(400 ≤ st ∧ st < 600) →
      env.parse body = .ok prs →
      env.serialize (modifyPres (pyStrip input.company_name) (pyStrip input.tier)
        env.year prs) = .ok modified →
      (handlerUploadRun env input).2 = some
        { Title := dynamicTitle (pyStrip input.title) (pyStrip input.company_name)
            (pyStrip input.tier)
          PathOnClient := dynamicTitle (pyStrip input.title)
            (pyStrip input.company_name) (pyStrip input.tier) ++ ".pptx"
          VersionData := String.mk (b64encode modified)
          IsMajorVersion := true
          ContentDocumentId := none }) := by
  constructor
  · intro env input p h
    obtain ⟨m, hp⟩ := uploadRun_obs h
    rw [hp]
    rfl
  · intro env input st reason body modified prs hub h068 hresp hok hparse hser
    have hne : pyStrip input.file_id ≠ "" := pyStartsWith_ne_empty (by decide) h068
    have hres : resolveTarget env (pyRstripChar env.credsUrl '/')
        (pyStrip input.file_id) =
        .ok (cvUrl (pyRstripChar env.credsUrl '/') (pyStrip input.file_id)) := by
      unfold resolveTarget
      simp [not069_of_068 h068, h068]
    have hdl : doDownload env
        (cvUrl (pyRstripChar env.credsUrl '/') (pyStrip input.file_id)) =
        .ok body := by
      unfold doDownload
      rw [hresp]
      simp only [respToResult]
      rw [if_neg hok]
    have hmod : modifyBytes env body (pyStrip input.company_name)
        (pyStrip input.tier) = .ok modified := by
      simp [modifyBytes, hparse, hser]
    simp only [handlerUploadRun, hne, if_neg, hres, hdl, hmod, hub, if_true]
    rcases hu : upload_file_to_salesforce env (pyRstripChar env.credsUrl '/')
        modified (dynamicTitle (pyStrip input.title) (pyStrip input.company_name)
          (pyStrip input.tier)) none with ⟨res, payload⟩
    have h4 : mkUploadPayload
        (dynamicTitle (pyStrip input.title) (pyStrip input.company_name)
          (pyStrip input.tier)) modified none = payload :=
      congrArg Prod.snd hu
    cases res <;> simp [← h4] <;> rfl

/-- Witness for claim C9: a successful end-to-end run through `envBase`. -/
theorem claim_c9_witness :
    (handlerUploadRun envBase
      { file_id := "068B", company_name := "Acme", tier := "Gold",
        upload_back_to_salesforce := true, title := "T" }).2 = some
      { Title := dynamicTitle (pyStrip "T") (pyStrip "Acme") (pyStrip "Gold")
        PathOnClient := dynamicTitle (pyStrip "T") (pyStrip "Acme")
          (pyStrip "Gold") ++ ".pptx"
        VersionData := String.mk (b64encode [80, 75, 9, 9])
        IsMajorVersion := true
        ContentDocumentId := none } :=
  claim_c9.2 envBase
    { file_id := "068B", company_name := "Acme", tier := "Gold",
      upload_back_to_salesforce := true, title := "T" }
    200 "OK" [80, 75, 3, 4] [80, 75, 9, 9] [[some [["Hello"]]]]
    rfl (by decide) rfl (by decide) rfl rfl

/-- Claim C10 counterexample: the request title `" Partner_Plus_Certificate"`
differs from the default, yet the title actually used for the upload is the
rewritten `"Partner_Plus_Certificate_Gold_Ac_me"` (the code strips the title
before comparing and using it), not the given title verbatim. -/
theorem claim_c10_cex :
    (" Partner_Plus_Certificate" : String) ≠ "Partner_Plus_Certificate" ∧
    (handlerUploadRun envBase
      { file_id := "068B", company_name := "Ac me", tier := "Gold",
        upload_back_to_salesforce := true,
        title := " Partner_Plus_Certificate" }).2 =
      some { Title := "Partner_Plus_Certificate_Gold_Ac_me",
             PathOnClient := "Partner_Plus_Certificate_Gold_Ac_me.pptx",
             VersionData := "UEsJCQ==", IsMajorVersion := true,
             ContentDocumentId := none } ∧
    ("Partner_Plus_Certificate_Gold_Ac_me" : String) ≠
      " Partner_Plus_Certificate" := by decide

/-- Claim C10 (amended): the title used for the upload is always
`dynamicTitle` of the STRIPPED request fields: when the stripped title equals
`"Partner_Plus_Certificate"` it is rewritten to
`"Partner_Plus_Certificate_" + tier + "_" + company` with spaces and `/` in
the company replaced by `_`; any other stripped title is used as stripped. -/
theorem claim_c10 :
    (∀ (env : Env) (input : UploadInput) (p : UploadPayload),
      (handlerUploadRun env input).2 = some p →
      p.Title = dynamicTitle (pyStrip input.title) (pyStrip input.company_name)
        (pyStrip input.tier)) ∧
    (∀ companyName tier : String,
      dynamicTitle "Partner_Plus_Certificate" companyName tier =
        "Partner_Plus_Certificate_" ++ tier ++ "_" ++
          pyReplace (pyReplace companyName " " "_") "/" "_") ∧
    (∀ title companyName tier : String, title ≠ "Partner_Plus_Certificate" →
      dynamicTitle title companyName tier = title) := by
  refine ⟨?_, ?_, ?_⟩
  · intro env input p h
    obtain ⟨m, hp⟩ := uploadRun_obs h
    rw [hp]
    rfl
  · intro companyName tier
    rw [dynamicTitle, if_pos rfl]
  · intro title companyName tier hne
    rw [dynamicTitle, if_neg hne]

/-- Witness for claim C10: a non-default title is used stripped, and the
handler's POSTed title is `dynamicTitle` of the stripped fields. -/
theorem claim_c10_witness :
    ({ Title := "T", PathOnClient := "T.pptx", VersionData := "UEsJCQ==",
       IsMajorVersion := true, ContentDocumentId := none } : UploadPayload).Title =
      dynamicTitle (pyStrip "T") (pyStrip "Acme") (pyStrip "Gold") ∧
    dynamicTitle "X" "A B" "Gold" = "X" :=
  ⟨claim_c10.1 envBase
    { file_id := "068B", company_name := "Acme", tier := "Gold",
      upload_back_to_salesforce := true, title := "T" } _ (by decide),
   claim_c10.2.2 "X" "A B" "Gold" (by decide)⟩

/-! ## Claim C1: the catch-all error boundary -/

theorem strAppend_assoc (a b c : String) : a ++ b ++ c = a ++ (b ++ c) := by
  cases a with
  | mk x =>
    cases b with
    | mk y =>
      cases c with
      | mk z =>
        show String.mk (x ++ y ++ z) = String.mk (x ++ (y ++ z))
        rw [List.append_assoc]

/-- Claim C1 counterexample: on an error, `salesforce_simple.py` returns a
blob beginning `"Error downloading file"`, which does NOT begin with
`"Error processing file"`. -/
theorem claim_c1_cex :
    handlerSimple envBase { file_id := "BAD" } =
      encodeStr ("Error downloading file from Salesforce: " ++
        unknownIdMsg "BAD") ∧
    List.isPrefixOf (encodeStr "Error processing file")
      (handlerSimple envBase { file_id := "BAD" }) = false := by decide

/-- Claim C1 (amended): every error raised inside a handler is caught at the
outermost boundary, stringified and returned as UTF-8 bytes; the blob begins
with `"Error processing file"` for the template and upload handlers, and with
`"Error downloading file"` for the plain download handler. -/
theorem claim_c1 (env : Env) (e : PyErr) :
    (∀ i : SimpleInput, handlerSimpleTry env i = .error e →
      handlerSimple env i =
        encodeStr ("Error downloading file from Salesforce: " ++ pyStr e) ∧
      List.isPrefixOf (encodeStr "Error downloading file")
        (handlerSimple env i) = true) ∧
    (∀ i : ReplaceInput, handlerReplaceTry env i = .error e →
      handlerReplace env i =
        encodeStr ("Error processing file from Salesforce: " ++ pyStr e) ∧
      List.isPrefixOf (encodeStr "Error processing file")
        (handlerReplace env i) = true) ∧
    (∀ i : UploadInput, (handlerUploadRun env i).1 = .error e →
      handlerUpload env i =
        encodeStr ("Error processing file from Salesforce: " ++ pyStr e) ∧
      List.isPrefixOf (encodeStr "Error processing file")
        (handlerUpload env i) = true) := by
  have hsplit1 : ("Error downloading file from Salesforce: " ++ pyStr e) =
      "Error downloading file" ++ (" from Salesforce: " ++ pyStr e) := by
    have h0 : ("Error downloading file from Salesforce: " : String) =
        "Error downloading file" ++ " from Salesforce: " := by decide
    rw [h0, strAppend_assoc]
  have hsplit2 : ("Error processing file from Salesforce: " ++ pyStr e) =
      "Error processing file" ++ (" from Salesforce: " ++ pyStr e) := by
    have h0 : ("Error processing file from Salesforce: " : String) =
        "Error processing file" ++ " from Salesforce: " := by decide
    rw [h0, strAppend_assoc]
  refine ⟨?_, ?_, ?_⟩
  · intro i h
    have hout : handlerSimple env i =
        encodeStr ("Error downloading file from Salesforce: " ++ pyStr e) := by
      unfold handlerSimple
      rw [h]
    refine ⟨hout, ?_⟩
    rw [hout, hsplit1, encodeStr_append]
    exact isPrefixOf_append_self _ _
  · intro i h
    have hout : handlerReplace env i =
        encodeStr ("Error processing file from Salesforce: " ++ pyStr e) := by
      unfold handlerReplace
      rw [h]
    refine ⟨hout, ?_⟩
    rw [hout, hsplit2, encodeStr_append]
    exact isPrefixOf_append_self _ _
  · intro i h
    have hout : handlerUpload env i =
        encodeStr ("Error processing file from Salesforce: " ++ pyStr e) := by
      unfold handlerUpload
      rw [h]
    refine ⟨hout, ?_⟩
    rw [hout, hsplit2, encodeStr_append]
    exact isPrefixOf_append_self _ _

/-- Witness for claim C1: the invalid identifier `"BAD"` in each handler. -/
theorem claim_c1_witness :
    (handlerSimple envBase { file_id := "BAD" } =
      encodeStr ("Error downloading file from Salesforce: " ++
        pyStr (.valueErr (unknownIdMsg "BAD"))) ∧
    List.isPrefixOf (encodeStr "Error downloading file")
      (handlerSimple envBase { file_id := "BAD" }) = true) ∧
    (handlerReplace envBase
        { file_id := "BAD", company_name := "Acme", tier := "Gold" } =
      encodeStr ("Error processing file from Salesforce: " ++
        pyStr (.valueErr (unknownIdMsg "BAD"))) ∧
    List.isPrefixOf (encodeStr "Error processing file")
      (handlerReplace envBase
        { file_id := "BAD", company_name := "Acme", tier := "Gold" }) = true) ∧
    (handlerUpload envBase
        { file_id := "BAD", company_name := "Acme", tier := "Gold",
          upload_back_to_salesforce := true, title := "T" } =
      encodeStr ("Error processing file from Salesforce: " ++
        pyStr (.valueErr (unknownIdMsg "BAD"))) ∧
    List.isPrefixOf (encodeStr "Error processing file")
      (handlerUpload envBase
        { file_id := "BAD", company_name := "Acme", tier := "Gold",
          upload_back_to_salesforce := true, title := "T" }) = true) :=
  ⟨(claim_c1 envBase (.valueErr (unknownIdMsg "BAD"))).1
      { file_id := "BAD" } (by decide),
   (claim_c1 envBase (.valueErr (unknownIdMsg "BAD"))).2.1
      { file_id := "BAD", company_name := "Acme", tier := "Gold" } (by decide),
   (claim_c1 envBase (.valueErr (unknownIdMsg "BAD"))).2.2
      { file_id := "BAD", company_name := "Acme", tier := "Gold",
        upload_back_to_salesforce := true, title := "T" } (by decide)⟩

end WxoSf
